import Mathlib

/-!
Verification of the botbyte-cli device-authorization core.

Shallow embedding of the CLI login module
(`src/server/src/cli/commands/auth/login.ts`) and the device-code
validation endpoint (`src/server/src/index.ts`).  Times are modelled in
integer milliseconds; an ISO-8601 timestamp string is modelled by its
epoch-millisecond value (the `Date` round trip is the identity on that
value).  JavaScript exceptions are modelled with `Except`; `try/catch`
becomes a `match` on the `Except` value.
-/

namespace Botbyte

/-- JavaScript `a || b` on an optional string: `undefined` and the empty
string are falsy. -/
def jsStrOr (a : Option String) (b : String) : String :=
  match a with
  | some s => if s = "" then b else s
  | none => b

/-- JavaScript truthiness of an optional string (`undefined` and `""` are
falsy). -/
def jsTruthy (a : Option String) : Bool :=
  match a with
  | some s => s ≠ ""
  | none => false

/-- `pat` is a prefix of `s`, over character lists. -/
def charsStartWith : List Char → List Char → Bool
  | _, [] => true
  | [], _ :: _ => false
  | a :: as, b :: bs => a == b && charsStartWith as bs

/-- `pat` occurs as a contiguous substring of `s`, over character
lists. -/
def charsContain (pat : List Char) : List Char → Bool
  | [] => charsStartWith [] pat
  | c :: rest => charsStartWith (c :: rest) pat || charsContain pat rest

/-- JavaScript `s.includes(pat)`: `pat` occurs as a substring of `s`. -/
def strContains (s pat : String) : Bool :=
  charsContain pat.data s.data

/-- The denormalized user snapshot carried inside a token. -/
structure UserInfo where
  id : String
  name : String
  email : String
deriving Repr, DecidableEq

/-- The token-exchange success payload (`TokenResponse` in login.ts):
the raw shape returned by `POST /api/auth/device/token` and passed to
`storeToken`. -/
structure TokenResponse where
  access_token : String
  refresh_token : Option String := none
  token_type : Option String := none
  scope : Option String := none
  expires_in : Option Int := none
  user : Option UserInfo := none
deriving Repr, DecidableEq

/-- The on-disk credential record (`TokenData` in login.ts).
`expiresAt`/`createdAt` are ISO strings in the source, modelled by their
epoch-millisecond values. -/
structure TokenData where
  accessToken : String
  refreshToken : Option String
  tokenType : String
  scope : Option String
  expiresAt : Option Int
  createdAt : Int
  user : Option UserInfo
deriving Repr, DecidableEq

/-- Contents of the credentials file: either a valid JSON encoding of a
`TokenData` record, or text that does not parse as one. -/
inductive FileContent
  | json (td : TokenData)
  | invalid (raw : String)
deriving Repr, DecidableEq

/-- State of the credentials file on disk. -/
inductive FileState
  | missing
  | unreadable
  | present (c : FileContent)
deriving Repr, DecidableEq

/-- The slice of the environment the credential cache touches: the
credentials file, and whether writes to it fail (disk / permission
errors). -/
structure FS where
  file : FileState
  writeFails : Bool
deriving Repr, DecidableEq

/-- `fs.readFile(TOKEN_FILE)`: errors for a missing or unreadable file. -/
def readCredFile (fs : FS) : Except String FileContent :=
  match fs.file with
  | .missing => .error "ENOENT: no such file or directory"
  | .unreadable => .error "EACCES: permission denied"
  | .present c => .ok c

/-- `JSON.parse` of the file contents as a `TokenData`: errors on text
that is not a valid encoding. -/
def parseTokenData : FileContent → Except String TokenData
  | .json td => .ok td
  | .invalid raw => .error ("Unexpected token in JSON: " ++ raw)

/-- `getStoredToken` (login.ts 61-69): `try { read; parse; return } catch
{ return null }`. -/
def getStoredToken (fs : FS) : Option TokenData :=
  match readCredFile fs >>= parseTokenData with
  | .ok td => some td
  | .error _ => none

/-- The `TokenData` record `storeToken` builds from the exchange payload
(login.ts 89-99).  JavaScript falsiness is preserved: `token_type = ""`
falls back to `"Bearer"`, and `expires_in = 0` yields `expiresAt = null`. -/
def mkTokenData (t : TokenResponse) (now : Int) : TokenData :=
  { accessToken := t.access_token
    refreshToken := t.refresh_token
    tokenType := jsStrOr t.token_type "Bearer"
    scope := t.scope
    expiresAt :=
      match t.expires_in with
      | some n => if n = 0 then none else some (now + n * 1000)
      | none => none
    createdAt := now
    user := t.user }

/-- `storeToken` (login.ts 76-106): builds the record, writes the file,
returns `true`; any error is caught and `false` is returned (the file is
left as it was). -/
def storeToken (fs : FS) (t : TokenResponse) (now : Int) : FS × Bool :=
  if fs.writeFails then (fs, false)
  else ({ fs with file := .present (.json (mkTokenData t now)) }, true)

/-- `clearStoredToken` (login.ts 112-120): `fs.unlink`, returning `false`
(not throwing) when the file is already absent. -/
def clearStoredToken (fs : FS) : FS × Bool :=
  match fs.file with
  | .missing => (fs, false)
  | _ => ({ fs with file := .missing }, true)

/-- `isTokenExpired` (login.ts 126-137): true when no token is stored or
it has no `expiresAt`; otherwise true when fewer than 5 minutes remain. -/
def isTokenExpired (fs : FS) (now : Int) : Bool :=
  match getStoredToken fs with
  | none => true
  | some td =>
    match td.expiresAt with
    | none => true
    | some e => decide (e - now < 5 * 60 * 1000)

/-- One server response observed by a poll attempt in `pollForToken`:
an HTTP 200 whose JSON body has a truthy `access_token` (`ok (some tok)`)
or lacks one (`ok none`); a non-ok response whose body parsed to
`{error, error_description}` (an unparseable body gives `err none none`,
matching `.catch(() => ({}))`); or a thrown fetch error with its
message. -/
inductive PollResponse
  | ok (tok : Option TokenResponse)
  | err (error errorDescription : Option String)
  | netFail (message : String)
deriving Repr, DecidableEq

/-- Result of `pollForToken`: the token (returned data), `timeout`
(returned `null` after the deadline), `fatal` (threw an `Error` with this
message), or `ranOut` — a model artifact meaning the finite response
trace was exhausted while the loop was still running. -/
inductive PollOutcome
  | token (t : TokenResponse)
  | timeout
  | fatal (message : String)
  | ranOut
deriving Repr, DecidableEq

/-- What one loop iteration does after classifying the response:
end the loop with an outcome, or continue with the (possibly updated)
interval. -/
inductive StepRes
  | ret (o : PollOutcome)
  | next (interval : Nat)
deriving Repr, DecidableEq

/-- A `throw` inside the poll loop's `try`: the surrounding `catch`
swallows it (and the loop continues at the current interval) exactly when
the message contains `"pending"`; otherwise it is rethrown. -/
def throwStep (m : String) (interval : Nat) : StepRes :=
  if strContains m "pending" then .next interval else .ret (.fatal m)

/-- The message of the `default` branch throw:
`error.error_description || error.error || "Authorization failed"`. -/
def defaultErrMsg (e d : Option String) : String :=
  jsStrOr d (jsStrOr e "Authorization failed")

/-- One iteration body of `pollForToken` (login.ts 403-449): the response
classification switch, with throws filtered through the catch block. -/
def pollStep (interval : Nat) : PollResponse → StepRes
  | .ok (some tok) => .ret (.token tok)
  | .ok none => .next interval
  | .err e d =>
    match e with
    | some "authorization_pending" => .next interval
    | some "slow_down" => .next (interval + 5000)
    | some "access_denied" => throwStep "Access was denied by the user" interval
    | some "expired_token" =>
        throwStep "The device code has expired. Please try again." interval
    | _ =>
        if jsTruthy e = true ∧ e ≠ some "authorization_pending" then
          throwStep (defaultErrMsg e d) interval
        else .next interval
  | .netFail m => throwStep m interval

/-- The `pollForToken` loop (login.ts 387-452) over a finite trace of
server responses, one per attempt, with an idealized clock: `elapsed` is
`Date.now() - startTime` in ms, each iteration first sleeps `interval`
ms, then the attempt observes the next trace element (fetch and
processing take zero model time).  Returns the outcome together with the
list of attempts as `(checkElapsed, attemptElapsed)` pairs:
`checkElapsed` is the elapsed time at the `while` guard before the
iteration's sleep, `attemptElapsed = checkElapsed + interval` the elapsed
time when the attempt's request is made. -/
def pollRun (expiresInMs : Nat) :
    Nat → Nat → List PollResponse → PollOutcome × List (Nat × Nat)
  | elapsed, _, [] =>
    if expiresInMs ≤ elapsed then (.timeout, []) else (.ranOut, [])
  | elapsed, interval, r :: rest =>
    if expiresInMs ≤ elapsed then (.timeout, [])
    else
      let t := elapsed + interval
      match pollStep interval r with
      | .ret o => (o, [(elapsed, t)])
      | .next interval' =>
        let res := pollRun expiresInMs t interval' rest
        (res.1, (elapsed, t) :: res.2)

/-- Entry point matching `pollForToken`'s signature: `initialInterval`
and `expiresIn` arrive in seconds and are scaled to ms, `elapsed` starts
at 0. -/
def pollForToken (initialInterval expiresIn : Nat)
    (trace : List PollResponse) : PollOutcome × List (Nat × Nat) :=
  pollRun (expiresIn * 1000) 0 (initialInterval * 1000) trace

/-- What `loginAction` shows after `pollForToken` returns (login.ts
290-346 and the surrounding catch): which messages are printed and
whether the process exits non-zero. -/
structure LoginOutcome where
  successShown : Bool
  saveWarning : Bool
  errorShown : Option String
  exitCode : Option Nat
deriving Repr, DecidableEq

/-- The tail of `loginAction` after polling: on a token, store it (the
warning appears exactly when `storeToken` returned `false`) and print the
success block; on `null` (timeout) the `if (token)` guard skips
everything and the action returns normally; on a throw the catch prints
the message and exits 1.  `ranOut` cannot arise from the real
(conceptually infinite) response stream and is mapped like `timeout`. -/
def loginAfterPoll : PollOutcome → Bool → LoginOutcome
  | .token _, storeOk => ⟨true, !storeOk, none, none⟩
  | .timeout, _ => ⟨false, false, none, none⟩
  | .fatal m, _ => ⟨false, false, some m, some 1⟩
  | .ranOut, _ => ⟨false, false, none, none⟩

/-- JavaScript `s.trim()` over character lists: drop leading and
trailing whitespace (the ASCII fragment of the Unicode set JS trims). -/
def trimChars (s : List Char) : List Char :=
  ((s.dropWhile Char.isWhitespace).reverse.dropWhile Char.isWhitespace).reverse

/-- The code normalization in `GET /api/device` (index.ts 76):
trim, remove every hyphen (a global-regex replace), uppercase
(`Char.toUpper` is the ASCII fragment of JS `toUpperCase`). -/
def formatUserCode (s : String) : String :=
  ⟨((trimChars s.data).filter (fun c => c ≠ '-')).map Char.toUpper⟩

/-- Response of the device validation endpoint, by status code. -/
inductive DeviceResp
  | ok (user_code : String)
  | badRequest (error : String)
deriving Repr, DecidableEq

/-- `GET /api/device` (index.ts 65-90): 400 when `user_code` is absent or
falsy, 400 when the normalized code does not have exactly 8 characters,
otherwise 200 with the normalized code. -/
def deviceValidate (user_code : Option String) : DeviceResp :=
  match user_code with
  | none => .badRequest "user_code is required"
  | some s =>
    if s = "" then .badRequest "user_code is required"
    else
      let formattedCode := formatUserCode s
      if formattedCode.length ≠ 8 then .badRequest "Invalid code format"
      else .ok formattedCode

/-- A loop iteration never decreases the polling interval: the only
update is the `slow_down` step `pollInterval += 5000`. -/
theorem pollStep_next_le (i : Nat) (r : PollResponse) (i' : Nat)
    (h : pollStep i r = .next i') : i ≤ i' := by
  cases r with
  | ok tok =>
    cases tok <;> simp only [pollStep] at h
    · exact StepRes.next.inj h ▸ le_refl i
    · exact absurd h (by simp)
  | err e d =>
    simp only [pollStep] at h
    split at h
    · exact StepRes.next.inj h ▸ le_refl i
    · exact StepRes.next.inj h ▸ Nat.le_add_right i 5000
    · unfold throwStep at h
      split at h
      · exact StepRes.next.inj h ▸ le_refl i
      · exact absurd h (by simp)
    · unfold throwStep at h
      split at h
      · exact StepRes.next.inj h ▸ le_refl i
      · exact absurd h (by simp)
    · split at h
      · unfold throwStep at h
        split at h
        · exact StepRes.next.inj h ▸ le_refl i
        · exact absurd h (by simp)
      · exact StepRes.next.inj h ▸ le_refl i
  | netFail m =>
    simp only [pollStep] at h
    unfold throwStep at h
    split at h
    · exact StepRes.next.inj h ▸ le_refl i
    · exact absurd h (by simp)

/-- Unfolding one iteration of the poll loop when the deadline check
passes. -/
theorem pollRun_cons (E e i : Nat) (r : PollResponse)
    (rest : List PollResponse) (h : e < E) :
    pollRun E e i (r :: rest) =
      match pollStep i r with
      | .ret o => (o, [(e, e + i)])
      | .next i' =>
        ((pollRun E (e + i) i' rest).1,
          (e, e + i) :: (pollRun E (e + i) i' rest).2) := by
  simp only [pollRun]
  rw [if_neg (Nat.not_le.mpr h)]

/-- Every recorded attempt `(check, at)` in a poll run has its loop-head
check no earlier than the starting elapsed time and strictly before the
deadline, and the attempt itself happens at least one current interval
after the check. -/
theorem pollRun_mem_attempts (E : Nat) (tr : List PollResponse) :
    ∀ (e i : Nat) (p : Nat × Nat), p ∈ (pollRun E e i tr).2 →
      e ≤ p.1 ∧ p.1 < E ∧ p.1 + i ≤ p.2 := by
  induction tr with
  | nil =>
    intro e i p hp
    simp only [pollRun] at hp
    split at hp <;> simp at hp
  | cons r rest ih =>
    intro e i p hp
    by_cases hE : E ≤ e
    · simp only [pollRun, if_pos hE] at hp
      simp at hp
    · rw [pollRun_cons E e i r rest (Nat.not_le.mp hE)] at hp
      cases hstep : pollStep i r with
      | ret o =>
        rw [hstep] at hp
        simp at hp
        subst hp
        exact ⟨le_refl e, Nat.not_le.mp hE, le_refl (e + i)⟩
      | next i' =>
        rw [hstep] at hp
        simp at hp
        rcases hp with rfl | hp
        · exact ⟨le_refl e, Nat.not_le.mp hE, le_refl (e + i)⟩
        · have h1 := ih (e + i) i' p hp
          have h2 := pollStep_next_le i r i' hstep
          exact ⟨by omega, h1.2.1, by omega⟩

/-- With a positive interval the poll loop makes only finitely many
attempts: each iteration advances the clock by at least one ms, so at
most `E - e` attempts fit before the deadline. -/
theorem pollRun_attempts_length (E : Nat) (tr : List PollResponse) :
    ∀ (e i : Nat), 0 < i → (pollRun E e i tr).2.length ≤ E - e := by
  induction tr with
  | nil =>
    intro e i _
    simp only [pollRun]
    split <;> simp
  | cons r rest ih =>
    intro e i hi
    by_cases hE : E ≤ e
    · simp [pollRun, if_pos hE]
    · rw [pollRun_cons E e i r rest (Nat.not_le.mp hE)]
      cases hstep : pollStep i r with
      | ret o => simp; omega
      | next i' =>
        have h2 := pollStep_next_le i r i' hstep
        have h1 := ih (e + i) i' (by omega)
        simp
        omega

/-- For an error code other than the four named ones (and non-empty),
the switch falls to `default` and throws the description-derived
message through the catch filter. -/
theorem pollStep_other (i : Nat) (s : String) (d : Option String)
    (h1 : s ≠ "authorization_pending") (h2 : s ≠ "slow_down")
    (h3 : s ≠ "access_denied") (h4 : s ≠ "expired_token") (h5 : s ≠ "") :
    pollStep i (.err (some s) d) = throwStep (defaultErrMsg (some s) d) i := by
  simp only [pollStep]
  split <;> simp_all [jsTruthy]

/-- Claim C1 (corrected), counterexample to the claim as stated: with
`expires_in = 7` s, initial interval 5 s, and a `slow_down` on the first
attempt, the second poll attempt begins at 15 s — 10 s after the first
poll, exceeding the advertised 7 s — and when the deadline is then
reached the poller returns `null` and `loginAction` shows no message at
all (no success, no warning, no error: no timeout report distinct from
`expired_token`). -/
theorem claim1_counterexample :
    (pollForToken 5 7 [.err (some "slow_down") none,
        .err (some "authorization_pending") none]).2 = [(0, 5000), (5000, 15000)] ∧
    7 * 1000 < 15000 - 5000 ∧
    (pollForToken 5 7 [.err (some "slow_down") none,
        .err (some "authorization_pending") none]).1 = .timeout ∧
    loginAfterPoll .timeout true =
      { successShown := false, saveWarning := false,
        errorShown := none, exitCode := none } := by
  decide

/-- Claim C1 (corrected, amended): the poller checks the deadline
against elapsed time at the head of each iteration, before that
iteration's sleep, so every attempt's check happens strictly before
`expires_in` elapsed (but the attempt itself one interval later — after
a `slow_down`, possibly more than `expires_in` after the first poll);
with a positive interval the number of attempts is finite (it never
hangs); once elapsed time reaches the deadline the loop stops and
returns `null`, after which `loginAction` completes normally without
reporting any timeout message. -/
theorem claim1_deadline_amended (E i : Nat) (tr : List PollResponse)
    (b : Bool) (h : 0 < i) :
    (∀ p ∈ (pollRun E 0 i tr).2, p.1 < E ∧ p.1 + i ≤ p.2) ∧
    (pollRun E 0 i tr).2.length ≤ E ∧
    pollRun E E i tr = (.timeout, []) ∧
    loginAfterPoll .timeout b =
      { successShown := false, saveWarning := false,
        errorShown := none, exitCode := none } := by
  refine ⟨?_, ?_, ?_, rfl⟩
  · intro p hp
    have h1 := pollRun_mem_attempts E tr 0 i p hp
    exact ⟨h1.2.1, h1.2.2⟩
  · have h1 := pollRun_attempts_length E tr 0 i h
    omega
  · cases tr <;> simp [pollRun]

/-- Witness for the amended C1 at a concrete session. -/
theorem claim1_deadline_amended_witness :
    (∀ p ∈ (pollRun 7000 0 5000 [PollResponse.err (some "slow_down") none,
        PollResponse.err (some "authorization_pending") none]).2,
      p.1 < 7000 ∧ p.1 + 5000 ≤ p.2) ∧
    (pollRun 7000 0 5000 [PollResponse.err (some "slow_down") none,
        PollResponse.err (some "authorization_pending") none]).2.length ≤ 7000 ∧
    pollRun 7000 7000 5000 [PollResponse.err (some "slow_down") none,
        PollResponse.err (some "authorization_pending") none] = (.timeout, []) ∧
    loginAfterPoll .timeout true =
      { successShown := false, saveWarning := false,
        errorShown := none, exitCode := none } :=
  claim1_deadline_amended 7000 5000
    [PollResponse.err (some "slow_down") none,
      PollResponse.err (some "authorization_pending") none] true (by decide)

/-- Claim C2 (corrected), counterexample to the claim as stated: a
single failed fetch whose message is an ordinary connection error (no
"pending" substring) is rethrown — the poller aborts with that fatal
error and `loginAction` surfaces it and exits 1, instead of continuing
to poll. -/
theorem claim2_counterexample :
    (pollForToken 5 900 [.netFail "ECONNREFUSED: connection refused"]).1 =
      .fatal "ECONNREFUSED: connection refused" ∧
    loginAfterPoll
        (pollForToken 5 900 [.netFail "ECONNREFUSED: connection refused"]).1
        true =
      { successShown := false, saveWarning := false,
        errorShown := some "ECONNREFUSED: connection refused",
        exitCode := some 1 } := by
  decide

/-- Claim C2 (corrected, amended): a fetch failure is treated as
transient — polling continues at the current interval — exactly when the
thrown error's message contains the substring `"pending"`; any other
fetch failure (e.g. a connection error) is rethrown and aborts the
session. -/
theorem claim2_netfail_amended (E e i : Nat) (m : String)
    (rest : List PollResponse) (h : e < E) :
    (strContains m "pending" = true →
      pollRun E e i (.netFail m :: rest) =
        ((pollRun E (e + i) i rest).1,
          (e, e + i) :: (pollRun E (e + i) i rest).2)) ∧
    (strContains m "pending" = false →
      pollRun E e i (.netFail m :: rest) = (.fatal m, [(e, e + i)])) := by
  constructor
  · intro hc
    rw [pollRun_cons E e i _ rest h]
    simp only [pollStep, throwStep, if_pos hc]
  · intro hc
    rw [pollRun_cons E e i _ rest h]
    simp only [pollStep, throwStep]
    rw [if_neg (by simp [hc])]

/-- Witness for the amended C2: a "pending"-mentioning failure is
swallowed and polling continues; a plain connection error is fatal. -/
theorem claim2_netfail_amended_witness :
    pollRun 900000 0 5000 [PollResponse.netFail "still pending retry"] =
      ((pollRun 900000 5000 5000 []).1,
        (0, 5000) :: (pollRun 900000 5000 5000 []).2) ∧
    pollRun 900000 0 5000 [PollResponse.netFail "socket hang up"] =
      (.fatal "socket hang up", [(0, 5000)]) :=
  ⟨(claim2_netfail_amended 900000 0 5000 "still pending retry" []
      (by decide)).1 (by decide),
    (claim2_netfail_amended 900000 0 5000 "socket hang up" []
      (by decide)).2 (by decide)⟩

/-- Claim C3 (corrected), counterexample to the claim as stated: after a
200 response whose body lacks `access_token`, the poller does not stop
with a protocol-violation error — it keeps polling, and here returns the
token obtained on the following attempt. -/
theorem claim3_counterexample :
    (pollForToken 5 900 [.ok none,
        .ok (some ⟨"tok", none, none, none, none, none⟩)]).1 =
      .token ⟨"tok", none, none, none, none, none⟩ := by
  decide

/-- Claim C3 (corrected, amended): a 200 response without a truthy
`access_token` is silently ignored — the `if (data.access_token)` guard
falls through and the poller continues polling at the current interval
rather than surfacing any error. -/
theorem claim3_malformed_ok_amended (E e i : Nat)
    (rest : List PollResponse) (h : e < E) :
    pollRun E e i (.ok none :: rest) =
      ((pollRun E (e + i) i rest).1,
        (e, e + i) :: (pollRun E (e + i) i rest).2) := by
  rw [pollRun_cons E e i _ rest h]
  rfl

/-- Witness for the amended C3 at a concrete session. -/
theorem claim3_malformed_ok_amended_witness :
    pollRun 900000 0 5000 [PollResponse.ok none] =
      ((pollRun 900000 5000 5000 []).1,
        (0, 5000) :: (pollRun 900000 5000 5000 []).2) :=
  claim3_malformed_ok_amended 900000 0 5000 [] (by decide)

/-- Claim C4 (confirmed): a `slow_down` response adds exactly 5000 ms to
the polling interval, the poller continues, and every subsequent attempt
in the session sleeps at least `i + 5000` ms between check and attempt —
strictly more than the previous effective interval `i`, and the interval
never decreases afterwards. -/
theorem claim4_slow_down_increases (E e i : Nat) (d : Option String)
    (rest : List PollResponse) (h : e < E) :
    pollRun E e i (.err (some "slow_down") d :: rest) =
      ((pollRun E (e + i) (i + 5000) rest).1,
        (e, e + i) :: (pollRun E (e + i) (i + 5000) rest).2) ∧
    ∀ p ∈ (pollRun E (e + i) (i + 5000) rest).2, i + 5000 ≤ p.2 - p.1 := by
  constructor
  · rw [pollRun_cons E e i _ rest h]
    rfl
  · intro p hp
    have h1 := pollRun_mem_attempts E rest (e + i) (i + 5000) p hp
    omega

/-- Witness for C4 at a concrete session. -/
theorem claim4_slow_down_increases_witness :
    pollRun 20000 0 5000
        [PollResponse.err (some "slow_down") none,
          PollResponse.err (some "authorization_pending") none] =
      ((pollRun 20000 5000 10000
          [PollResponse.err (some "authorization_pending") none]).1,
        (0, 5000) :: (pollRun 20000 5000 10000
          [PollResponse.err (some "authorization_pending") none]).2) ∧
    ∀ p ∈ (pollRun 20000 5000 10000
        [PollResponse.err (some "authorization_pending") none]).2,
      5000 + 5000 ≤ p.2 - p.1 :=
  claim4_slow_down_increases 20000 0 5000 none
    [PollResponse.err (some "authorization_pending") none] (by decide)

/-- Claim C5 (corrected), counterexample to the claim as stated: an
error response with the named code `server_error` whose
`error_description` contains the substring `"pending"` does not stop the
poller — the thrown error is swallowed by the catch filter and polling
continues (here the next attempt succeeds), contradicting "on any other
named error code it stops". -/
theorem claim5_counterexample :
    (pollForToken 5 900
        [.err (some "server_error") (some "request pending review"),
          .ok (some ⟨"tok2", none, none, none, none, none⟩)]).1 =
      .token ⟨"tok2", none, none, none, none, none⟩ := by
  decide

/-- Claim C5 (corrected, amended): `access_denied` stops polling with
the denial-specific message "Access was denied by the user";
`expired_token` stops with the distinct message "The device code has
expired. Please try again."; `authorization_pending` continues polling
at the current interval; any other named (non-empty) error code throws
`error_description || error || "Authorization failed"` — which aborts
the session unless that message contains the substring `"pending"`, in
which case the catch swallows it and polling continues. -/
theorem claim5_error_dispatch (E e i : Nat) (d : Option String)
    (s : String) (rest : List PollResponse) (h : e < E)
    (hs : s ∉ ["authorization_pending", "slow_down", "access_denied",
      "expired_token", ""]) :
    pollRun E e i (.err (some "access_denied") d :: rest) =
      (.fatal "Access was denied by the user", [(e, e + i)]) ∧
    pollRun E e i (.err (some "expired_token") d :: rest) =
      (.fatal "The device code has expired. Please try again.",
        [(e, e + i)]) ∧
    pollRun E e i (.err (some "authorization_pending") d :: rest) =
      ((pollRun E (e + i) i rest).1,
        (e, e + i) :: (pollRun E (e + i) i rest).2) ∧
    pollRun E e i (.err (some s) d :: rest) =
      (if strContains (defaultErrMsg (some s) d) "pending" = true then
        ((pollRun E (e + i) i rest).1,
          (e, e + i) :: (pollRun E (e + i) i rest).2)
      else (.fatal (defaultErrMsg (some s) d), [(e, e + i)])) := by
  simp only [List.mem_cons] at hs
  push_neg at hs
  obtain ⟨ha, hb, hc, hd, he, -⟩ := hs
  refine ⟨?_, ?_, ?_, ?_⟩
  · rw [pollRun_cons E e i _ rest h]; rfl
  · rw [pollRun_cons E e i _ rest h]; rfl
  · rw [pollRun_cons E e i _ rest h]; rfl
  · rw [pollRun_cons E e i _ rest h, pollStep_other i s d ha hb hc hd he]
    by_cases hc : strContains (defaultErrMsg (some s) d) "pending" = true
    · rw [if_pos hc]
      unfold throwStep
      rw [if_pos hc]
    · rw [if_neg hc]
      unfold throwStep
      rw [if_neg hc]

/-- Witness for the amended C5 at concrete responses. -/
theorem claim5_error_dispatch_witness :
    pollRun 900000 0 5000
        [PollResponse.err (some "access_denied") (some "boom")] =
      (.fatal "Access was denied by the user", [(0, 5000)]) ∧
    pollRun 900000 0 5000
        [PollResponse.err (some "expired_token") (some "boom")] =
      (.fatal "The device code has expired. Please try again.",
        [(0, 5000)]) ∧
    pollRun 900000 0 5000
        [PollResponse.err (some "authorization_pending") (some "boom")] =
      ((pollRun 900000 5000 5000 []).1,
        (0, 5000) :: (pollRun 900000 5000 5000 []).2) ∧
    pollRun 900000 0 5000
        [PollResponse.err (some "server_error") (some "boom")] =
      (if strContains (defaultErrMsg (some "server_error") (some "boom"))
          "pending" = true then
        ((pollRun 900000 5000 5000 []).1,
          (0, 5000) :: (pollRun 900000 5000 5000 []).2)
      else (.fatal (defaultErrMsg (some "server_error") (some "boom")),
        [(0, 5000)])) :=
  claim5_error_dispatch 900000 0 5000 (some "boom") "server_error" []
    (by decide) (by decide)

/-- Claim C6 (confirmed): storing a credential and loading it back
yields exactly the persisted record (the `TokenData` built from the
input), `clear` followed by `load` yields `none`, `load` on a missing
file yields `none` without an exception, and `clear` on an
already-absent file returns `false` without an exception. -/
theorem claim6_roundtrip (fs : FS) (t : TokenResponse) (now : Int)
    (h : fs.writeFails = false) :
    (storeToken fs t now).2 = true ∧
    getStoredToken (storeToken fs t now).1 = some (mkTokenData t now) ∧
    getStoredToken (clearStoredToken fs).1 = none ∧
    getStoredToken ⟨.missing, fs.writeFails⟩ = none ∧
    (clearStoredToken ⟨.missing, fs.writeFails⟩).2 = false := by
  refine ⟨?_, ?_, ?_, rfl, rfl⟩
  · simp [storeToken, h]
  · simp only [storeToken, h, Bool.false_eq_true, if_false]
    rfl
  · rcases fs with ⟨file, w⟩
    cases file <;> rfl

/-- Witness for C6 at a concrete credential and file system. -/
theorem claim6_roundtrip_witness :
    (storeToken ⟨.missing, false⟩ ⟨"tok", none, none, none, some 3600, none⟩
        1000).2 = true ∧
    getStoredToken (storeToken ⟨.missing, false⟩
        ⟨"tok", none, none, none, some 3600, none⟩ 1000).1 =
      some (mkTokenData ⟨"tok", none, none, none, some 3600, none⟩ 1000) ∧
    getStoredToken (clearStoredToken ⟨.missing, false⟩).1 = none ∧
    getStoredToken ⟨.missing, (⟨.missing, false⟩ : FS).writeFails⟩ = none ∧
    (clearStoredToken ⟨.missing, (⟨.missing, false⟩ : FS).writeFails⟩).2 =
      false :=
  claim6_roundtrip ⟨.missing, false⟩ ⟨"tok", none, none, none, some 3600, none⟩
    1000 rfl

/-- Claim C7 (confirmed): for a stored credential, `isTokenExpired` is
true when `expiresAt` is absent, and otherwise true exactly when fewer
than 5 minutes (300000 ms) remain until `expiresAt`; a credential
expiring 60 s from now is reported expired, one expiring 600 s from now
is not. -/
theorem claim7_expiry_margin (fs : FS) (now : Int) (td : TokenData)
    (h : getStoredToken fs = some td) :
    (isTokenExpired fs now = true ↔
      td.expiresAt = none ∨
        ∃ e, td.expiresAt = some e ∧ e - now < 5 * 60 * 1000) ∧
    (td.expiresAt = some (now + 60 * 1000) → isTokenExpired fs now = true) ∧
    (td.expiresAt = some (now + 600 * 1000) →
      isTokenExpired fs now = false) := by
  have hunf : isTokenExpired fs now =
      (match td.expiresAt with
        | none => true
        | some e => decide (e - now < 5 * 60 * 1000)) := by
    unfold isTokenExpired
    rw [h]
  refine ⟨?_, ?_, ?_⟩
  · rw [hunf]
    cases hx : td.expiresAt with
    | none => simp
    | some e => simp [hx]
  · intro hx
    rw [hunf, hx]
    simp
  · intro hx
    rw [hunf, hx]
    simp

/-- Witness for C7: with `now = 0`, a credential with
`expiresAt = 60000` ms is reported expired. -/
theorem claim7_expiry_margin_witness :
    isTokenExpired
        ⟨.present (.json ⟨"tok", none, "Bearer", none, some 60000, 0, none⟩),
          false⟩ 0 = true :=
  (claim7_expiry_margin
      ⟨.present (.json ⟨"tok", none, "Bearer", none, some 60000, 0, none⟩),
        false⟩ 0 ⟨"tok", none, "Bearer", none, some 60000, 0, none⟩
      rfl).2.1 (by norm_num)

/-- Claim C9 (confirmed): when writing the credential file fails,
`storeToken` returns `false` (it is a total function — the exception is
caught, never propagated) and leaves the file untouched; `loginAction`
still prints the success block and exits normally, additionally showing
the save warning; when the save succeeds no warning is shown. -/
theorem claim9_storage_failure (f : FileState) (t : TokenResponse)
    (now : Int) :
    storeToken ⟨f, true⟩ t now = (⟨f, true⟩, false) ∧
    loginAfterPoll (.token t) false =
      { successShown := true, saveWarning := true,
        errorShown := none, exitCode := none } ∧
    loginAfterPoll (.token t) true =
      { successShown := true, saveWarning := false,
        errorShown := none, exitCode := none } :=
  ⟨rfl, rfl, rfl⟩

/-- Claim C10 (confirmed): whatever the credential file holds — missing,
unreadable, or text that is not valid JSON — `getStoredToken` returns
`none` without an exception (as a total `Option`-valued function the
propagated-error branch cannot occur), and a corrupt file behaves
exactly like an absent one. -/
theorem claim10_load_total (raw : String) (w : Bool) :
    getStoredToken ⟨.missing, w⟩ = none ∧
    getStoredToken ⟨.unreadable, w⟩ = none ∧
    getStoredToken ⟨.present (.invalid raw), w⟩ = none ∧
    getStoredToken ⟨.present (.invalid raw), w⟩ =
      getStoredToken ⟨.missing, w⟩ :=
  ⟨rfl, rfl, rfl, rfl⟩

/-- Claim C8 (corrected), counterexample to the claim as stated: the
endpoint returns 200 for a `user_code` of eight punctuation characters,
which is not alphanumeric (and the handler consults no request store, so
no pending check can have occurred). -/
theorem claim8_counterexample :
    deviceValidate (some "!!!!!!!!") = .ok "!!!!!!!!" ∧
    "!!!!!!!!".data.all Char.isAlphanum = false := by
  decide

/-- Claim C8 (corrected, amended): `GET /api/device` returns 200 exactly
when the query carries a non-empty `user_code` that, after trimming,
removing hyphens and uppercasing, has exactly 8 characters — no
alphanumeric check and no pending-request check is performed; otherwise
it returns 400 ("user_code is required" when absent or empty, "Invalid
code format" when the normalized length is not 8). -/
theorem claim8_length_only (s : String) :
    (deviceValidate (some s) = .ok (formatUserCode s) ↔
      s ≠ "" ∧ (formatUserCode s).length = 8) ∧
    deviceValidate none = .badRequest "user_code is required" ∧
    (s = "" → deviceValidate (some s) = .badRequest "user_code is required") ∧
    (s ≠ "" → (formatUserCode s).length ≠ 8 →
      deviceValidate (some s) = .badRequest "Invalid code format") := by
  refine ⟨?_, rfl, ?_, ?_⟩
  · simp only [deviceValidate]
    by_cases h0 : s = ""
    · simp [h0]
    · rw [if_neg h0]
      by_cases h8 : (formatUserCode s).length = 8
      · simp [h8, h0]
      · simp [h8, h0]
  · intro h0
    simp [deviceValidate, h0]
  · intro h0 h8
    simp [deviceValidate, h0, h8]

/-- Witness for the amended C8: a hyphenated lowercase code normalizes
to 8 characters and is accepted. -/
theorem claim8_length_only_witness :
    deviceValidate (some "abcd-efgh") = .ok (formatUserCode "abcd-efgh") :=
  (claim8_length_only "abcd-efgh").1.mpr (by decide)

end Botbyte
